import Mathlib

/-!
Verification of the context bridge and resolution/routing subsystem of the
Handy speech-to-text repository: a shallow embedding of the context resolver
and mapping table (ContextMappingsList), the prompt editor save path
(ContextPromptEditor), the cloud provider configuration updates
(CloudSTTSettings, ApiKeyInput) and the browser-extension bridge client
(background script), with theorems settling the spec's claims about them.
-/

namespace Handy

/-! ## Context resolver and mapping table (ContextMappingsList) -/

/-- A user-created override mapping an application id to a style id
(`ContextMapping` of the bindings). -/
structure ContextMapping where
  app_id : String
  context_style : String
  deriving DecidableEq, Repr

/-- One row of the static factory-default table `DEFAULT_APPS`. -/
structure DefaultApp where
  id : String
  name : String
  defaultStyle : String
  deriving DecidableEq, Repr

/-- A post-processing style definition (`ContextStylePrompt` of the bindings). -/
structure ContextStylePrompt where
  id : String
  name : String
  description : String
  prompt : String
  is_builtin : Bool
  deriving DecidableEq, Repr

/-- The static factory-default table `DEFAULT_APPS` of ContextMappingsList. -/
def DEFAULT_APPS : List DefaultApp := [
  ⟨"gmail", "Gmail", "email_pro"⟩,
  ⟨"outlook", "Outlook", "email_pro"⟩,
  ⟨"outlook_web", "Outlook Web", "email_pro"⟩,
  ⟨"apple_mail", "Apple Mail", "email_pro"⟩,
  ⟨"slack", "Slack", "chat"⟩,
  ⟨"slack_web", "Slack Web", "chat"⟩,
  ⟨"discord", "Discord", "chat"⟩,
  ⟨"discord_web", "Discord Web", "chat"⟩,
  ⟨"whatsapp", "WhatsApp", "chat"⟩,
  ⟨"whatsapp_web", "WhatsApp Web", "chat"⟩,
  ⟨"telegram", "Telegram", "chat"⟩,
  ⟨"telegram_web", "Telegram Web", "chat"⟩,
  ⟨"imessage", "iMessage", "chat"⟩,
  ⟨"vscode", "VS Code", "code"⟩,
  ⟨"cursor", "Cursor", "code"⟩,
  ⟨"notion", "Notion", "notes"⟩,
  ⟨"notion_web", "Notion Web", "notes"⟩,
  ⟨"obsidian", "Obsidian", "notes"⟩,
  ⟨"chatgpt", "ChatGPT", "ai_assistant"⟩,
  ⟨"claude", "Claude", "ai_assistant"⟩,
  ⟨"linkedin", "LinkedIn", "social_pro"⟩,
  ⟨"twitter", "Twitter/X", "social_casual"⟩,
  ⟨"github", "GitHub", "dev_tools"⟩,
  ⟨"linear", "Linear", "dev_tools"⟩,
  ⟨"linear_web", "Linear Web", "dev_tools"⟩]

/-- `getStyleForApp` of ContextMappingsList: first mapping for the app id,
else the static default (JS `defaultApp?.defaultStyle || "correction"`,
so an empty default string also falls back), else `"correction"`. -/
def getStyleForApp (mappings : List ContextMapping) (appId : String) : String :=
  match mappings.find? (fun m => m.app_id == appId) with
  | some mapping => mapping.context_style
  | none =>
    match DEFAULT_APPS.find? (fun a => a.id == appId) with
    | some a => if a.defaultStyle = "" then "correction" else a.defaultStyle
    | none => "correction"

/-- The static default style of an app id, `DEFAULT_APPS.find(...)?.defaultStyle`
as an optional value (JS `undefined` is `none`). -/
def staticDefault (appId : String) : Option String :=
  (DEFAULT_APPS.find? (fun a => a.id == appId)).map (fun a => a.defaultStyle)

/-- `isCustomMapping` of ContextMappingsList: JS
`defaultApp?.defaultStyle !== currentStyle`, where a missing default
(`undefined`) is never strictly equal to a string. -/
def isCustomMapping (mappings : List ContextMapping) (appId : String) : Bool :=
  !(staticDefault appId == some (getStyleForApp mappings appId))

/-- Modelled from the spec: the backend command `deleteContextMapping(app_id) -> ok`
is not among the repository files under src/ (only its caller
`handleResetMapping` is); per the spec it deletes the `ContextMapping` whose
unique key is `app_id`, returning that app to default behavior, and never
removes the underlying catalog entry. -/
def deleteContextMapping (mappings : List ContextMapping) (appId : String) :
    List ContextMapping :=
  mappings.filter (fun m => m.app_id != appId)

/-- A style store that does not contain the id "ghost": used to exhibit a
dangling `ContextMapping.context_style` reference. -/
def danglingStore : List ContextStylePrompt :=
  [⟨"correction", "Correction", "Fix grammar", "Fix the transcript.", true⟩]

lemma find?_filter_ne (l : List ContextMapping) (appId : String) :
    (l.filter (fun m => m.app_id != appId)).find? (fun m => m.app_id == appId) = none := by
  rw [List.find?_eq_none]
  intro x hx
  rw [List.mem_filter] at hx
  simpa using hx.2

/-- Claim C1: if the loaded mapping table has an entry for `appId`, then
`getStyleForApp` returns that entry's `context_style`, whether or not a
static factory default exists for `appId`. -/
theorem getStyleForApp_mapping (mappings : List ContextMapping) (appId : String)
    (m : ContextMapping) (h : mappings.find? (fun x => x.app_id == appId) = some m) :
    getStyleForApp mappings appId = m.context_style := by
  unfold getStyleForApp
  rw [h]

/-- Claim C1 witness: app id "gmail" has a static default ("email_pro"), yet
with a mapping to "chat" the resolver returns "chat". -/
theorem getStyleForApp_mapping_w :
    ([⟨"gmail", "chat"⟩] : List ContextMapping).find? (fun x => x.app_id == "gmail")
      = some ⟨"gmail", "chat"⟩ ∧
    getStyleForApp [⟨"gmail", "chat"⟩] "gmail" = "chat" :=
  ⟨by decide, getStyleForApp_mapping [⟨"gmail", "chat"⟩] "gmail" ⟨"gmail", "chat"⟩ (by decide)⟩

/-- Claim C2: with no mapping entry and no static default row for `appId`,
`getStyleForApp` returns the fixed generic fallback "correction". -/
theorem getStyleForApp_fallback (mappings : List ContextMapping) (appId : String)
    (h1 : mappings.find? (fun x => x.app_id == appId) = none)
    (h2 : DEFAULT_APPS.find? (fun a => a.id == appId) = none) :
    getStyleForApp mappings appId = "correction" := by
  unfold getStyleForApp
  rw [h1, h2]

/-- Claim C2 witness: "spotify" has no mapping in a nonempty table and no
`DEFAULT_APPS` row, and resolves to "correction". -/
theorem getStyleForApp_fallback_w :
    ([⟨"gmail", "chat"⟩] : List ContextMapping).find? (fun x => x.app_id == "spotify") = none ∧
    DEFAULT_APPS.find? (fun a => a.id == "spotify") = none ∧
    getStyleForApp [⟨"gmail", "chat"⟩] "spotify" = "correction" :=
  ⟨by decide, by decide,
    getStyleForApp_fallback [⟨"gmail", "chat"⟩] "spotify" (by decide) (by decide)⟩

/-- Claim C3 counterexample: the mapping for "gmail" points at style id
"ghost", which is absent from the loaded style store, yet resolution returns
the dangling id "ghost" — not "correction" as the claim states. -/
theorem dangling_style_cex :
    danglingStore.find? (fun p => p.id == "ghost") = none ∧
    getStyleForApp [⟨"gmail", "ghost"⟩] "gmail" = "ghost" ∧
    ("ghost" : String) ≠ "correction" := by
  refine ⟨by decide, by decide, by decide⟩

/-- Claim C3 (amended): `getStyleForApp` never consults the style store — for
an app id with a mapping whose style id is dangling (absent from the loaded
prompt list), it still returns the mapping's style id, with no fallback to
"correction" and no error. -/
theorem getStyleForApp_ignores_store (mappings : List ContextMapping) (appId : String)
    (m : ContextMapping) (prompts : List ContextStylePrompt)
    (h : mappings.find? (fun x => x.app_id == appId) = some m)
    (hdangling : prompts.find? (fun p => p.id == m.context_style) = none) :
    getStyleForApp mappings appId = m.context_style := by
  unfold getStyleForApp
  rw [h]

/-- Claim C3 (amended) witness: the dangling mapping ["gmail" ↦ "ghost"]
against a store without "ghost" resolves to "ghost". -/
theorem getStyleForApp_ignores_store_w :
    ([⟨"gmail", "ghost"⟩] : List ContextMapping).find? (fun x => x.app_id == "gmail")
      = some ⟨"gmail", "ghost"⟩ ∧
    danglingStore.find? (fun p => p.id == "ghost") = none ∧
    getStyleForApp [⟨"gmail", "ghost"⟩] "gmail" = "ghost" :=
  ⟨by decide, by decide,
    getStyleForApp_ignores_store [⟨"gmail", "ghost"⟩] "gmail" ⟨"gmail", "ghost"⟩
      danglingStore (by decide) (by decide)⟩

/-- Claim C6 counterexample: "teams_web" (an app id the extension's domain
table can produce) has no `DEFAULT_APPS` row; after `deleteContextMapping`
removes its mapping, `isCustomMapping` is `true`, not `false` as the claim
states. -/
theorem isCustomMapping_after_delete_cex :
    staticDefault "teams_web" = none ∧
    isCustomMapping (deleteContextMapping [⟨"teams_web", "chat"⟩] "teams_web") "teams_web"
      = true := by
  refine ⟨by decide, by decide⟩

/-- Claim C6 (amended): `isCustomMapping appId` is true iff the optional
static default differs from `some (resolved style)` (so an app id with no
static default always counts as custom); and after `deleteContextMapping`,
`isCustomMapping appId` is false for every app id that has a (nonempty)
static factory default row. -/
theorem isCustomMapping_spec (mappings : List ContextMapping) (appId : String)
    (a : DefaultApp) (hfind : DEFAULT_APPS.find? (fun x => x.id == appId) = some a)
    (hne : a.defaultStyle ≠ "") :
    (isCustomMapping mappings appId = true ↔
      staticDefault appId ≠ some (getStyleForApp mappings appId)) ∧
    isCustomMapping (deleteContextMapping mappings appId) appId = false := by
  constructor
  · simp [isCustomMapping]
  · have hresolved : getStyleForApp (deleteContextMapping mappings appId) appId
        = a.defaultStyle := by
      unfold getStyleForApp deleteContextMapping
      rw [find?_filter_ne, hfind]
      simp [hne]
    simp [isCustomMapping, staticDefault, hfind, hresolved]

/-- Claim C6 (amended) witness: for "gmail" (static default "email_pro"),
the custom flag matches the difference test, and deleting its custom mapping
["gmail" ↦ "chat"] makes `isCustomMapping` false. -/
theorem isCustomMapping_spec_w :
    DEFAULT_APPS.find? (fun x => x.id == "gmail") = some ⟨"gmail", "Gmail", "email_pro"⟩ ∧
    (("email_pro" : String) ≠ "") ∧
    ((isCustomMapping [⟨"gmail", "chat"⟩] "gmail" = true ↔
      staticDefault "gmail" ≠ some (getStyleForApp [⟨"gmail", "chat"⟩] "gmail")) ∧
     isCustomMapping (deleteContextMapping [⟨"gmail", "chat"⟩] "gmail") "gmail" = false) :=
  ⟨by decide, by decide,
    isCustomMapping_spec [⟨"gmail", "chat"⟩] "gmail" ⟨"gmail", "Gmail", "email_pro"⟩
      (by decide) (by decide)⟩

/-! ## Cloud STT provider configuration (CloudSTTSettings, ApiKeyInput) -/

/-- JS `String.prototype.trim()`: drop whitespace from both ends. Defined by
list traversal so that it evaluates inside the kernel. -/
def jsTrim (s : String) : String :=
  String.mk (((s.data.dropWhile Char.isWhitespace).reverse.dropWhile
    Char.isWhitespace).reverse)

/-- The singleton `CloudSTTConfig`: per-provider API keys and model
selections are string-keyed maps (JS objects), modelled pointwise. -/
structure CloudSTTConfig where
  enabled : Bool
  active_provider : Option String
  api_keys : String → Option String
  selected_models : String → Option String

/-- The keyed update `handleApiKeyChange` applies to the config
(`api_keys: \x7b ...prev.api_keys, [providerId]: apiKey \x7d`, mirroring the
`setCloudSttApiKey` command it invokes): a pointwise override at one key. -/
def setCloudSttApiKey (c : CloudSTTConfig) (p k : String) : CloudSTTConfig :=
  { c with api_keys := fun q => if q = p then some k else c.api_keys q }

/-- The keyed update `handleModelChange` applies to the config
(`selected_models: \x7b ...prev.selected_models, [providerId]: modelId \x7d`,
mirroring the `setCloudSttModel` command it invokes). -/
def setCloudSttModel (c : CloudSTTConfig) (p m : String) : CloudSTTConfig :=
  { c with selected_models := fun q => if q = p then some m else c.selected_models q }

/-- `handleTest` of ApiKeyInput, composed with its CloudSTTSettings wiring:
the input's `value` prop is `config.api_keys[provider.id] || ""`, and
`onChange` is `handleApiKeyChange`, i.e. `setCloudSttApiKey`. A blank entered
key aborts; an entered key differing from `value` is committed via `onChange`
before the test round-trip (the test itself, `testCloudSttConnection`, is a
read-only network call returning a boolean). The result is the stored config
after the interaction. -/
def handleTest (c : CloudSTTConfig) (p : String) (localValue : String) : CloudSTTConfig :=
  let value := (c.api_keys p).getD ""
  if jsTrim localValue = "" then c
  else if localValue ≠ value then setCloudSttApiKey c p localValue
  else c

/-- A configured store: provider "gemini" has key "k1". -/
def geminiConfig : CloudSTTConfig :=
  { enabled := true
    active_provider := some "gemini"
    api_keys := fun q => if q = "gemini" then some "k1" else none
    selected_models := fun _ => none }

/-- Claim C4 counterexample: with "k1" stored for "gemini", testing the
entered key "k2" persists "k2" into the stored config as a side effect —
the config does not stay unchanged as the claim states. -/
theorem handleTest_persists_cex :
    geminiConfig.api_keys "gemini" = some "k1" ∧
    ("k2" : String) ≠ "k1" ∧
    (handleTest geminiConfig "gemini" "k2").api_keys "gemini" = some "k2" := by
  refine ⟨by decide, by decide, by decide⟩

/-- Claim C4 (amended): testing an entered key equal to the configured key
leaves the stored config unchanged, but testing a nonblank entered key that
differs from the configured key first persists that key (handleTest commits
the draft through `onChange`, which invokes `setCloudSttApiKey`) — so a test
of an unsaved key does mutate the stored config. -/
theorem handleTest_frame (c : CloudSTTConfig) (p lv : String) (hlv : jsTrim lv ≠ "") :
    (lv = (c.api_keys p).getD "" → handleTest c p lv = c) ∧
    (lv ≠ (c.api_keys p).getD "" → (handleTest c p lv).api_keys p = some lv) := by
  constructor
  · intro h
    unfold handleTest
    rw [if_neg hlv, if_neg (by simpa using h)]
  · intro h
    unfold handleTest
    rw [if_neg hlv, if_pos (by simpa using h)]
    simp [setCloudSttApiKey]

/-- Claim C4 (amended) witness: at the concrete config with "k1" stored for
"gemini", testing "k1" changes nothing, and testing "k2" stores "k2". -/
theorem handleTest_frame_w :
    (jsTrim "k1" ≠ "") ∧
    ((("k1" : String) = (geminiConfig.api_keys "gemini").getD "" →
        handleTest geminiConfig "gemini" "k1" = geminiConfig) ∧
      (("k1" : String) ≠ (geminiConfig.api_keys "gemini").getD "" →
        (handleTest geminiConfig "gemini" "k1").api_keys "gemini" = some "k1")) ∧
    (jsTrim "k2" ≠ "") ∧
    (handleTest geminiConfig "gemini" "k2").api_keys "gemini" = some "k2" :=
  ⟨by decide, handleTest_frame geminiConfig "gemini" "k1" (by decide), by decide,
    (handleTest_frame geminiConfig "gemini" "k2" (by decide)).2 (by decide)⟩

/-- Claim C5: config updates are keyed, not positional — setting the API key
(or the selected model) for provider `p` leaves both stored maps unchanged at
every other provider `q`, and in particular the spec's scenario holds:
setting "gemini" to "k1" then "openai" to "k2" leaves `api_keys "gemini"`
at "k1". -/
theorem cloud_config_isolation (c : CloudSTTConfig) (p q k m : String) (hpq : p ≠ q) :
    (setCloudSttApiKey c p k).api_keys q = c.api_keys q ∧
    (setCloudSttApiKey c p k).selected_models q = c.selected_models q ∧
    (setCloudSttModel c p m).selected_models q = c.selected_models q ∧
    (setCloudSttModel c p m).api_keys q = c.api_keys q ∧
    (setCloudSttApiKey (setCloudSttApiKey c "gemini" "k1") "openai" "k2").api_keys "gemini"
      = some "k1" := by
  have hqp : q ≠ p := fun h => hpq h.symm
  refine ⟨?_, rfl, ?_, rfl, ?_⟩
  · simp [setCloudSttApiKey, hqp]
  · simp [setCloudSttModel, hqp]
  · simp [setCloudSttApiKey]

/-- Claim C5 witness: concrete isolation at providers "gemini" ≠ "openai"
over the empty config. -/
theorem cloud_config_isolation_w :
    (("gemini" : String) ≠ "openai") ∧
    ((setCloudSttApiKey ⟨false, none, fun _ => none, fun _ => none⟩ "gemini" "ka").api_keys
        "openai" = (⟨false, none, fun _ => none, fun _ => none⟩ : CloudSTTConfig).api_keys
        "openai" ∧
      (setCloudSttApiKey ⟨false, none, fun _ => none, fun _ => none⟩ "gemini" "ka").selected_models
        "openai" = (⟨false, none, fun _ => none, fun _ => none⟩ : CloudSTTConfig).selected_models
        "openai" ∧
      (setCloudSttModel ⟨false, none, fun _ => none, fun _ => none⟩ "gemini" "mm").selected_models
        "openai" = (⟨false, none, fun _ => none, fun _ => none⟩ : CloudSTTConfig).selected_models
        "openai" ∧
      (setCloudSttModel ⟨false, none, fun _ => none, fun _ => none⟩ "gemini" "mm").api_keys
        "openai" = (⟨false, none, fun _ => none, fun _ => none⟩ : CloudSTTConfig).api_keys
        "openai" ∧
      (setCloudSttApiKey
          (setCloudSttApiKey ⟨false, none, fun _ => none, fun _ => none⟩ "gemini" "k1")
          "openai" "k2").api_keys "gemini" = some "k1") :=
  ⟨by decide,
    cloud_config_isolation ⟨false, none, fun _ => none, fun _ => none⟩ "gemini" "openai"
      "ka" "mm" (by decide)⟩

/-! ## Prompt editor save path (ContextPromptEditor) -/

/-- Local state of ContextPromptEditor: the last-loaded prompt store, the
selected prompt id (`null` is `none`) and the three draft fields. -/
structure EditorState where
  prompts : List ContextStylePrompt
  selectedPromptId : Option String
  draftName : String
  draftDescription : String
  draftPrompt : String
  deriving DecidableEq, Repr

/-- JS `prompts.find((p) => p.id === selectedPromptId)`; a `null` id matches
no prompt. -/
def selectedPrompt (s : EditorState) : Option ContextStylePrompt :=
  match s.selectedPromptId with
  | none => none
  | some id => s.prompts.find? (fun p => p.id == id)

/-- The editor's dirty flag: a prompt is selected and at least one draft
field differs from the last-loaded value (JS
`selectedPrompt && (draftName !== ... || ... || ...)`). -/
def isDirty (s : EditorState) : Bool :=
  match selectedPrompt s with
  | none => false
  | some p =>
    s.draftName != p.name || s.draftDescription != p.description ||
      s.draftPrompt != p.prompt

/-- JS `draft.trim() || null`: the trimmed field if nonblank, else `null`
("leave unchanged" for the update command). -/
def strOrNull (x : String) : Option String :=
  if jsTrim x = "" then none else some (jsTrim x)

/-- The payload `handleSave` passes to `updateContextStylePrompt`. -/
structure SaveCall where
  id : String
  name : Option String
  description : Option String
  prompt : Option String
  deriving DecidableEq, Repr

/-- `handleSave` of ContextPromptEditor: bail out when no prompt id is
selected (JS falsy: `null` or the empty string) or the draft is not dirty;
otherwise issue the update command with each field trimmed-or-null. Returns
the issued command, `none` when no save is performed. -/
def handleSave (s : EditorState) : Option SaveCall :=
  match s.selectedPromptId with
  | none => none
  | some id =>
    if id = "" then none
    else if isDirty s then
      some ⟨id, strOrNull s.draftName, strOrNull s.draftDescription, strOrNull s.draftPrompt⟩
    else none

/-- Whether the editor reloads the store after `handleSave`: only when a save
was issued and the command returned ok (`result.status === "ok"` guards
`loadPrompts()`). -/
def handleSaveReloads (s : EditorState) (ok : Bool) : Bool :=
  match handleSave s with
  | none => false
  | some _ => ok

/-- An editor state whose draft is entirely blank while the stored prompt is
not: dirty, and `handleSave` still issues a save. -/
def blankDraftState : EditorState :=
  { prompts := [⟨"p1", "Chat", "Casual", "Rewrite casually.", true⟩]
    selectedPromptId := some "p1"
    draftName := ""
    draftDescription := ""
    draftPrompt := "" }

/-- Claim C9 counterexample: with every draft field empty and a nonempty
stored prompt, the draft is dirty and `handleSave` performs a save (sending
null for every field) — the code never requires a non-empty draft, contrary
to the claim. -/
theorem editor_save_cex :
    isDirty blankDraftState = true ∧
    blankDraftState.draftName = "" ∧
    blankDraftState.draftDescription = "" ∧
    blankDraftState.draftPrompt = "" ∧
    handleSave blankDraftState = some ⟨"p1", none, none, none⟩ := by
  refine ⟨by decide, by decide, by decide, by decide, by decide⟩

/-- Claim C9 (amended): the dirty flag is true exactly when a prompt is
selected and at least one draft field differs from the last-loaded store
state; a save is performed exactly for a dirty draft with a selected
(nonblank) id — emptiness of the draft fields does not block the save, blank
fields are sent as null meaning leave-unchanged; and the store is reloaded
exactly after a save that the command answered ok. -/
theorem editor_save_spec (s : EditorState) (ok : Bool) :
    (isDirty s = true ↔ ∃ p, selectedPrompt s = some p ∧
      (s.draftName ≠ p.name ∨ s.draftDescription ≠ p.description ∨
        s.draftPrompt ≠ p.prompt)) ∧
    ((handleSave s).isSome = true ↔ ∃ id, s.selectedPromptId = some id ∧ id ≠ "" ∧
      isDirty s = true) ∧
    (handleSaveReloads s ok = true ↔ ((handleSave s).isSome = true ∧ ok = true)) := by
  refine ⟨?_, ?_, ?_⟩
  · unfold isDirty
    cases h : selectedPrompt s with
    | none => simp
    | some p => simp [h, or_assoc]
  · unfold handleSave
    cases h : s.selectedPromptId with
    | none => simp
    | some id =>
      by_cases hid : id = ""
      · simp [hid]
      · by_cases hd : isDirty s = true
        · simp [hid, hd]
        · simp [hid, hd]
  · unfold handleSaveReloads
    cases h : handleSave s with
    | none => simp
    | some call => simp

/-! ## Bridge client (browser-extension background script)

The extension's module state is `let ws = null` (the current WebSocket
handle) and `let reconnectInterval = null` (the reconnect timer). The model
keeps every socket ever created in `conns` with its current ready state, so
that abandoned handles remain visible; `ws` holds the id of the handle the
module variable references; `timers` lists the live reconnect intervals with
their period in milliseconds; `sent` is the log of context pushes. -/

/-- WebSocket ready states. -/
inductive ReadyState where
  | connecting
  | openSt
  | closing
  | closedSt
  deriving DecidableEq, Repr

/-- One WebSocket the script has created. -/
structure Conn where
  id : Nat
  readyState : ReadyState
  deriving DecidableEq, Repr

/-- The active browser tab as the script reads it (`chrome.tabs.query`):
its url, whether `new URL(tab.url)` parses (the script catches the throw and
sends nothing), the parsed hostname, and `tab.title || ""`. -/
structure Tab where
  url : String
  urlValid : Bool
  hostname : String
  title : String
  deriving DecidableEq, Repr

/-- One context push, the JSON object of `sendCurrentContext`. -/
structure ContextMsg where
  browser : String
  url : String
  domain : String
  page_title : String
  detected_app : Option String
  deriving DecidableEq, Repr

/-- The bridge client's state. -/
structure ClientState where
  conns : List Conn
  ws : Option Nat
  timers : List Nat
  sent : List ContextMsg
  nextId : Nat
  deriving DecidableEq, Repr

/-- The static domain-to-app table `detectApp` closes over. -/
def domainAppMappings : List (String × String) := [
  ("mail.google.com", "gmail"),
  ("outlook.office.com", "outlook_web"),
  ("outlook.live.com", "outlook_web"),
  ("outlook.office365.com", "outlook_web"),
  ("app.slack.com", "slack_web"),
  ("discord.com", "discord_web"),
  ("web.whatsapp.com", "whatsapp_web"),
  ("web.telegram.org", "telegram_web"),
  ("chat.openai.com", "chatgpt"),
  ("chatgpt.com", "chatgpt"),
  ("claude.ai", "claude"),
  ("notion.so", "notion_web"),
  ("www.notion.so", "notion_web"),
  ("www.linkedin.com", "linkedin"),
  ("linkedin.com", "linkedin"),
  ("twitter.com", "twitter"),
  ("x.com", "twitter"),
  ("github.com", "github"),
  ("www.github.com", "github"),
  ("linear.app", "linear_web"),
  ("teams.microsoft.com", "teams_web")]

/-- `detectApp` of the background script: table lookup, `null` if unknown. -/
def detectApp (domain : String) : Option String :=
  (domainAppMappings.find? (fun m => m.1 == domain)).map (fun m => m.2)

/-- The ready state of the socket with id `i`, if it exists. -/
def connState (s : ClientState) (i : Nat) : Option ReadyState :=
  (s.conns.find? (fun c => c.id == i)).map (fun c => c.readyState)

/-- `ws.readyState` of the handle the module variable references. -/
def wsReadyState (s : ClientState) : Option ReadyState :=
  match s.ws with
  | none => none
  | some i => connState s i

/-- Overwrite the ready state of socket `i`. -/
def setReady (s : ClientState) (i : Nat) (r : ReadyState) : ClientState :=
  { s with conns := s.conns.map (fun c => if c.id == i then { c with readyState := r } else c) }

/-- `connect()` of the background script: a no-op when the referenced handle
exists and is OPEN; otherwise a fresh WebSocket (CONNECTING) replaces the
module handle — whatever socket `ws` referenced before is abandoned, not
closed. -/
def connect (s : ClientState) : ClientState :=
  if wsReadyState s = some ReadyState.openSt then s
  else { s with
    conns := s.conns ++ [⟨s.nextId, ReadyState.connecting⟩]
    ws := some s.nextId
    nextId := s.nextId + 1 }

/-- The context object built from the active tab. -/
def buildMsg (t : Tab) : ContextMsg :=
  { browser := "chrome"
    url := t.url
    domain := t.hostname
    page_title := t.title
    detected_app := detectApp t.hostname }

/-- `sendContext` of the background script: push only while the referenced
handle is OPEN, otherwise drop silently. -/
def sendContext (s : ClientState) (m : ContextMsg) : ClientState :=
  if wsReadyState s = some ReadyState.openSt then { s with sent := s.sent ++ [m] }
  else s

/-- `sendCurrentContext`: read the active tab; if there is one with a truthy
url that parses, push the full context object built from it. -/
def sendCurrentContext (tab : Option Tab) (s : ClientState) : ClientState :=
  match tab with
  | none => s
  | some t => if t.url ≠ "" ∧ t.urlValid = true then sendContext s (buildMsg t) else s

/-- The `ws.onopen` handler firing for socket `i`: the socket becomes OPEN,
the reconnect interval (if any) is cleared and nulled, and
`sendCurrentContext` runs against the active tab `tab`. -/
def handleOpen (tab : Option Tab) (s : ClientState) (i : Nat) : ClientState :=
  sendCurrentContext tab { setReady s i ReadyState.openSt with timers := [] }

/-- The `ws.onclose` handler firing for socket `i`: the socket becomes
CLOSED, the module handle is nulled, and a 5000 ms reconnect interval is
created only when none is active. -/
def handleClose (s : ClientState) (i : Nat) : ClientState :=
  let s1 := { setReady s i ReadyState.closedSt with ws := none }
  if s1.timers = [] then { s1 with timers := [5000] } else s1

/-- Module load: both variables null, nothing created yet (the load-time
`connect()` call is a `connect` step from here). -/
def initState : ClientState :=
  { conns := [], ws := none, timers := [], sent := [], nextId := 0 }

/-- The states the background script can reach: `connect()` calls (at load
or from the reconnect interval), an open event on a CONNECTING socket, and a
close event on a socket that exists and is not already CLOSED. The `onerror`
handler only logs and is omitted. -/
inductive Reachable : ClientState → Prop where
  | init : Reachable initState
  | connectStep (s : ClientState) : Reachable s → Reachable (connect s)
  | openStep (s : ClientState) (i : Nat) (tab : Option Tab) : Reachable s →
      connState s i = some ReadyState.connecting → Reachable (handleOpen tab s i)
  | closeStep (s : ClientState) (i : Nat) : Reachable s →
      connState s i ≠ none → connState s i ≠ some ReadyState.closedSt →
      Reachable (handleClose s i)

lemma connect_timers (s : ClientState) : (connect s).timers = s.timers := by
  unfold connect
  split <;> rfl

lemma sendContext_timers (s : ClientState) (m : ContextMsg) :
    (sendContext s m).timers = s.timers := by
  unfold sendContext
  split <;> rfl

lemma sendCurrentContext_timers (tab : Option Tab) (s : ClientState) :
    (sendCurrentContext tab s).timers = s.timers := by
  unfold sendCurrentContext
  cases tab with
  | none => rfl
  | some t =>
    dsimp only
    split
    · exact sendContext_timers _ _
    · rfl

lemma handleOpen_timers (tab : Option Tab) (s : ClientState) (i : Nat) :
    (handleOpen tab s i).timers = [] := by
  unfold handleOpen
  rw [sendCurrentContext_timers]

lemma handleClose_timers (s : ClientState) (i : Nat) :
    (handleClose s i).timers = if s.timers = [] then [5000] else s.timers := by
  unfold handleClose
  dsimp only [setReady]
  split <;> simp_all

/-- In every reachable state the timer list is nothing or the single 5000 ms
interval. -/
lemma timers_inv (s : ClientState) (h : Reachable s) :
    s.timers = [] ∨ s.timers = [5000] := by
  induction h with
  | init => left; rfl
  | connectStep s _ ih => rw [connect_timers]; exact ih
  | openStep s i tab _ _ _ => left; exact handleOpen_timers tab s i
  | closeStep s i _ _ _ ih =>
    rw [handleClose_timers]
    rcases ih with h0 | h1
    · rw [if_pos h0]; right; rfl
    · rw [h1]; right; simp

/-- Claim C7: in every reachable state of the bridge client at most one
reconnect timer is active and every active timer has the fixed 5-second
period; moreover a close event always leaves exactly the single 5000 ms
timer (scheduling is idempotent: a close with a timer already active creates
no second timer), and the timer is cleared exactly when a connection opens. -/
theorem bridge_reconnect (s : ClientState) (i : Nat) (tab : Option Tab)
    (h : Reachable s) :
    s.timers.length ≤ 1 ∧
    s.timers.all (fun t => t == 5000) = true ∧
    (handleClose s i).timers = [5000] ∧
    (handleOpen tab s i).timers = [] := by
  rcases timers_inv s h with h0 | h1
  · refine ⟨by rw [h0]; decide, by rw [h0]; rfl, ?_, handleOpen_timers tab s i⟩
    rw [handleClose_timers, if_pos h0]
  · refine ⟨by rw [h1]; decide, by rw [h1]; rfl, ?_, handleOpen_timers tab s i⟩
    rw [handleClose_timers, h1]
    simp

/-- Claim C7 witness: at the reachable state after the load-time `connect()`,
the invariant holds, a close schedules the one 5000 ms timer, and an open
clears it. -/
theorem bridge_reconnect_w :
    Reachable (connect initState) ∧
    ((connect initState).timers.length ≤ 1 ∧
      (connect initState).timers.all (fun t => t == 5000) = true ∧
      (handleClose (connect initState) 0).timers = [5000] ∧
      (handleOpen none (connect initState) 0).timers = []) :=
  ⟨Reachable.connectStep initState Reachable.init,
    bridge_reconnect (connect initState) 0 none
      (Reachable.connectStep initState Reachable.init)⟩

lemma find?_map_setReady (l : List Conn) (i : Nat) (r : ReadyState) (c : Conn)
    (h : l.find? (fun x => x.id == i) = some c) :
    (l.map (fun x => if x.id == i then { x with readyState := r } else x)).find?
      (fun x => x.id == i) = some { c with readyState := r } := by
  induction l with
  | nil => simp at h
  | cons a l ih =>
    rw [List.map_cons]
    by_cases ha : (a.id == i) = true
    · rw [List.find?_cons_of_pos (p := fun x : Conn => x.id == i) l ha] at h
      cases h
      rw [if_pos ha]
      exact List.find?_cons_of_pos (p := fun x : Conn => x.id == i) _ ha
    · rw [List.find?_cons_of_neg (p := fun x : Conn => x.id == i) l ha] at h
      rw [if_neg ha, List.find?_cons_of_neg (p := fun x : Conn => x.id == i) _ ha]
      exact ih h

lemma connState_setReady_self (s : ClientState) (i : Nat) (r : ReadyState)
    (h : connState s i ≠ none) : connState (setReady s i r) i = some r := by
  unfold connState at h ⊢
  unfold setReady
  dsimp only
  rcases ho : s.conns.find? (fun c => c.id == i) with _ | c
  · rw [ho] at h; simp at h
  · rw [find?_map_setReady s.conns i r c ho]
    rfl

/-- Claim C8: whenever the socket the module handle references completes its
handshake (open event), the client cancels every pending reconnect timer and
immediately pushes the current active tab's full context object — url,
hostname, title and client-side detected app — to the server. -/
theorem bridge_open_pushes (s : ClientState) (i : Nat) (t : Tab)
    (hws : s.ws = some i) (hconn : connState s i = some ReadyState.connecting)
    (hurl : t.url ≠ "") (hvalid : t.urlValid = true) :
    (handleOpen (some t) s i).timers = [] ∧
    (handleOpen (some t) s i).sent = s.sent ++ [buildMsg t] := by
  refine ⟨handleOpen_timers _ _ _, ?_⟩
  unfold handleOpen sendCurrentContext
  dsimp only
  rw [if_pos ⟨hurl, hvalid⟩]
  have hopen : wsReadyState { setReady s i ReadyState.openSt with timers := [] }
      = some ReadyState.openSt := by
    have hws2 : ({ setReady s i ReadyState.openSt with timers := [] } : ClientState).ws
        = some i := hws
    unfold wsReadyState
    rw [hws2]
    have := connState_setReady_self s i ReadyState.openSt (by rw [hconn]; simp)
    unfold connState setReady at this ⊢
    exact this
  unfold sendContext
  rw [if_pos hopen]
  rfl

/-- Claim C8 witness: after the load-time `connect()`, the open event on
socket 0 with Gmail as the active tab clears the timers and pushes the full
Gmail context message. -/
theorem bridge_open_pushes_w :
    (connect initState).ws = some 0 ∧
    connState (connect initState) 0 = some ReadyState.connecting ∧
    (("https://mail.google.com/mail/u/0" : String) ≠ "") ∧
    ((handleOpen (some ⟨"https://mail.google.com/mail/u/0", true, "mail.google.com", "Inbox"⟩)
        (connect initState) 0).timers = [] ∧
      (handleOpen (some ⟨"https://mail.google.com/mail/u/0", true, "mail.google.com", "Inbox"⟩)
        (connect initState) 0).sent
        = (connect initState).sent
          ++ [buildMsg ⟨"https://mail.google.com/mail/u/0", true, "mail.google.com", "Inbox"⟩]) :=
  ⟨by decide, by decide, by decide,
    bridge_open_pushes (connect initState) 0
      ⟨"https://mail.google.com/mail/u/0", true, "mail.google.com", "Inbox"⟩
      (by decide) (by decide) (by decide) (by decide)⟩

/-- A reachable state in which two sockets are OPEN at once: connect, close,
then two connect calls from the reconnect interval while the first handshake
is still in flight, then both handshakes complete. -/
def bridgeTwoOpenState : ClientState :=
  handleOpen none
    (handleOpen none (connect (connect (handleClose (connect initState) 0))) 1) 2

/-- Claim C10 counterexample: the no-OPEN guard of `connect()` does not stop
a connect while the current socket is still CONNECTING, so a reachable
sequence of connect calls abandons an in-flight socket and ends with two
live (OPEN) connections to the server at the same time. -/
theorem connect_two_live_cex :
    Reachable bridgeTwoOpenState ∧
    (bridgeTwoOpenState.conns.filter (fun c => c.readyState == ReadyState.openSt)).length
      = 2 := by
  constructor
  · exact Reachable.openStep _ 2 none
      (Reachable.openStep _ 1 none
        (Reachable.connectStep _
          (Reachable.connectStep _
            (Reachable.closeStep _ 0
              (Reachable.connectStep _ Reachable.init)
              (by decide) (by decide))))
        (by decide))
      (by decide)
  · decide

/-- Claim C10 (amended): `connect()` is a no-op whenever the current socket
handle exists and is already OPEN, and the client references at most one
socket at a time; but a connect call while the current socket is still
CONNECTING replaces the handle, so more than one live connection can exist
transiently. -/
theorem connect_noop (s : ClientState) (h : wsReadyState s = some ReadyState.openSt) :
    connect s = s := by
  unfold connect
  rw [if_pos h]

/-- Claim C10 (amended) witness: once the first socket is OPEN, a further
`connect()` changes nothing. -/
theorem connect_noop_w :
    wsReadyState (handleOpen none (connect initState) 0) = some ReadyState.openSt ∧
    connect (handleOpen none (connect initState) 0) = handleOpen none (connect initState) 0 :=
  ⟨by decide, connect_noop (handleOpen none (connect initState) 0) (by decide)⟩

end Handy
